import Mathlib

/-!
Shallow embedding of the DevPod in-container setup agent
(`cmd/agent/container/setup.go`): the setup orchestrator `Run`, the mount
streaming loop, `dockerlessBuild`, `parseIgnorePaths`, `fillContainerEnv`,
the IDE installer dispatch (`installIDE`, `setupVSCode`, `setupOpenVSCode`),
`configureSystemGitCredentials` handling and `progressReader.Read`.

External effects (filesystem reads, subprocess runs, tunnel calls) are
modelled as explicit inputs (their observed results) and explicit effect
traces; errors are `Except String`.
-/

namespace DevPodSetup

/-- Result of `os.ReadDir` on a directory: an error, or the number of
entries found. -/
inductive DirRead where
  | err : DirRead
  | ok (entries : Nat) : DirRead
deriving DecidableEq, Repr

/-- The Go condition `err == nil && len(files) > 0` on a ReadDir result. -/
def DirRead.nonempty : DirRead → Bool
  | DirRead.err => false
  | DirRead.ok n => n > 0

/-- A configured bind mount: source path on the host, target path in the
container (`config.Mount`). -/
structure Mount where
  source : String
  target : String
deriving DecidableEq, Repr

/-- The mount streaming loop of `SetupContainerCmd.Run` (the
`if cmd.StreamMounts` body): for each mount in listed order, when the Reset
CLI option is false and reading the target directory succeeds with at least
one entry, the mount is skipped; otherwise `streamMount` is invoked, and a
stream error aborts the loop. Returns the list of mounts for which
`streamMount` was invoked, and the first error if any. -/
def syncMounts (reset : Bool) (readDir : String → DirRead)
    (stream : Mount → Except String Unit) : List Mount → List Mount × Option String
  | [] => ([], none)
  | m :: rest =>
    if !reset ∧ (readDir m.target).nonempty then
      syncMounts reset readDir stream rest
    else
      match stream m with
      | Except.error e => ([m], some e)
      | Except.ok _ =>
        let r := syncMounts reset readDir stream rest
        (m :: r.1, r.2)

/-- Whitespace characters recognised by Go's `unicode.IsSpace` in the
Latin-1 range, used by `strings.TrimSpace`. -/
def isGoSpace (c : Char) : Bool :=
  c = ' ' ∨ c = '\t' ∨ c = '\n' ∨ c = '\x0b' ∨ c = '\x0c' ∨ c = '\r' ∨
    c = '\u0085' ∨ c = '\u00A0'

/-- Go `strings.TrimSpace`: drop leading and trailing whitespace. -/
def trimSpace (s : String) : String :=
  String.mk (((s.data.dropWhile isGoSpace).reverse.dropWhile isGoSpace).reverse)

/-- Go `strings.Split(s, ",")` on the character list: split around every
comma; the empty input yields one empty field. -/
def splitOnComma : List Char → List (List Char)
  | [] => [[]]
  | c :: rest =>
    let r := splitOnComma rest
    if c = ',' then [] :: r
    else
      match r with
      | [] => [[c]]
      | h :: t => (c :: h) :: t

/-- The `parseIgnorePaths` function: a blank input yields no arguments;
otherwise the input is split on commas and every field is trimmed and
prefixed with a "--ignore-path" flag. -/
def parseIgnorePaths (ignorePaths : String) : List String :=
  if trimSpace ignorePaths = "" then []
  else
    ((splitOnComma ignorePaths.data).map (fun l => String.mk l)).foldl
      (fun acc s => acc ++ ["--ignore-path", trimSpace s]) []

/-- Fixed output path of the dockerless builder's image configuration,
`DockerlessImageConfigOutput` in the source. -/
def DockerlessImageConfigOutput : String := "/.dockerless/image.json"

/-- Model of `filepath.Join` on two path components. -/
def joinPath (a b : String) : String := a ++ "/" ++ b

/-- Logging levels of the structured logger that matter here
(`logrus.ErrorLevel`, `logrus.InfoLevel`, `logrus.DebugLevel`). -/
inductive LogLevel where
  | error
  | info
  | debug
deriving DecidableEq, Repr

/-- Observable side effects of `dockerlessBuild` other than logging:
directory renames/removals, docker credential configuration, the builder
subprocess invocation (with the log levels its stderr and stdout are routed
to, `none` meaning the stream is not routed to the logger), and the
env-file merge. -/
inductive Effect where
  | renameDir (src dst : String)
  | configureCredentials
  | runBuilder (args : List String) (stderrLevel : Option LogLevel)
      (stdoutLevel : Option LogLevel)
  | mergeEnvApply (env : List String)
  | removeAll (dir : String)
deriving DecidableEq, Repr

/-- Inputs of `dockerlessBuild`: every environment read, filesystem probe
and fallible external call it performs, with its observed result. -/
structure DockerlessEnv where
  dockerlessVar : String
  imageConfigExists : Bool
  contextVar : String
  buildInfoDirExists : Bool
  renameFromFallback : Except String Unit
  buildInfoDirExistsAfter : Bool
  executablePath : Except String String
  disableDockerCredentials : String
  ignorePaths : String
  registryCache : String
  goos : String
  goarch : String
  workspaceFolder : String
  mounts : List Mount
  readDir : String → DirRead
  builderRun : Except String Unit
  readConfigFile : Except String String
  parseConfig : Except String (List String)
  finalRename : Except String Unit
  debug : Bool

/-- The mount loop of `dockerlessBuild`: every mount whose target directory
is already non-empty is added as an extra "--ignore-path" argument. -/
def mountIgnoreArgs (readDir : String → DirRead) : List Mount → List String
  | [] => []
  | m :: rest =>
    (if (readDir m.target).nonempty then ["--ignore-path", m.target] else []) ++
      mountIgnoreArgs readDir rest

/-- The deterministic argument assembly of `dockerlessBuild`. -/
def buildArgs (env : DockerlessEnv) (binaryPath : String) : List String :=
  ["build", "--ignore-path", binaryPath] ++ parseIgnorePaths env.ignorePaths ++
    ["--build-arg", "TARGETOS=" ++ env.goos, "--build-arg",
      "TARGETARCH=" ++ env.goarch] ++
    (if env.registryCache ≠ "" then ["--registry-cache", env.registryCache]
      else []) ++
    ["--ignore-path", env.workspaceFolder] ++
    mountIgnoreArgs env.readDir env.mounts

/-- The build-info recovery block of `dockerlessBuild`: when the build-info
subdirectory is missing, relocate the fallback directory into place and
check again; a failed rename or a still-missing directory is fatal. -/
def recoverBuildInfo (env : DockerlessEnv)
    (fallbackDir buildInfoDir : String) :
    Except String Unit × List Effect :=
  if env.buildInfoDirExists then (Except.ok (), [])
  else
    match env.renameFromFallback with
    | Except.error e =>
      (Except.error ("rename dir: " ++ e),
        [Effect.renameDir fallbackDir buildInfoDir])
    | Except.ok _ =>
      if env.buildInfoDirExistsAfter then
        (Except.ok (), [Effect.renameDir fallbackDir buildInfoDir])
      else
        (Except.error ("couldn't find build dir " ++ buildInfoDir),
          [Effect.renameDir fallbackDir buildInfoDir])

/-- The `dockerlessBuild` function. `buildInfoFolder` and
`contextFeatureFolder` stand for the path constants
`config.DevPodDockerlessBuildInfoFolder` and
`config.DevPodContextFeatureFolder`, which live outside src/. Returns the
final result and the trace of non-logging side effects in order. -/
def dockerlessBuild (env : DockerlessEnv)
    (buildInfoFolder contextFeatureFolder : String) :
    Except String Unit × List Effect :=
  if env.dockerlessVar ≠ "true" then (Except.ok (), [])
  else if env.imageConfigExists then (Except.ok (), [])
  else if env.contextVar = "" then (Except.ok (), [])
  else
    let fallbackDir := joinPath buildInfoFolder contextFeatureFolder
    let buildInfoDir := joinPath env.contextVar contextFeatureFolder
    let recover := recoverBuildInfo env fallbackDir buildInfoDir
    match recover.1 with
    | Except.error e => (Except.error e, recover.2)
    | Except.ok _ =>
      let effs0 := recover.2
      match env.executablePath with
      | Except.error e => (Except.error e, effs0)
      | Except.ok binaryPath =>
        let effs1 := effs0 ++
          (if env.disableDockerCredentials ≠ "true" then
            [Effect.configureCredentials] else [])
        let stdoutLevel := if env.debug then some LogLevel.debug else none
        let effs2 := effs1 ++
          [Effect.runBuilder (buildArgs env binaryPath) (some LogLevel.info)
            stdoutLevel]
        match env.builderRun with
        | Except.error e => (Except.error e, effs2)
        | Except.ok _ =>
          match env.readConfigFile with
          | Except.error e => (Except.error e, effs2)
          | Except.ok _ =>
            match env.parseConfig with
            | Except.error e =>
              (Except.error ("parse container config: " ++ e), effs2)
            | Except.ok cfgEnv =>
              let effs3 := effs2 ++
                [Effect.mergeEnvApply cfgEnv, Effect.removeAll fallbackDir,
                  Effect.renameDir buildInfoDir fallbackDir]
              match env.finalRename with
              | Except.error _ => (Except.ok (), effs3)
              | Except.ok _ => (Except.ok (), effs3)

/-- Helper extracting, from an effect trace, the stderr routing level of
every builder invocation recorded in it. -/
def builderStderrLevels : List Effect → List (Option LogLevel)
  | [] => []
  | Effect.runBuilder _ lvl _ :: rest => lvl :: builderStderrLevels rest
  | _ :: rest => builderStderrLevels rest

/-- Helper extracting the stdout routing level of every builder invocation
recorded in an effect trace. -/
def builderStdoutLevels : List Effect → List (Option LogLevel)
  | [] => []
  | Effect.runBuilder _ _ lvl :: rest => lvl :: builderStdoutLevels rest
  | _ :: rest => builderStdoutLevels rest

/-- The defaulting step of `fillContainerEnv`: a nil map becomes an empty
one, and when no "PATH" key is present the entry
PATH to "$\x7bcontainerEnv:PATH\x7d" is inserted. The map is modelled as an
association list with lookup semantics. -/
def defaultRemoteEnv (remoteEnv : Option (List (String × String))) :
    List (String × String) :=
  let env := remoteEnv.getD []
  if (env.lookup "PATH").isNone then
    ("PATH", "$\x7bcontainerEnv:PATH\x7d") :: env
  else env

/-- Modelled from the spec: `config.SubstituteContainerEnv` is outside
src/; per the data-model section the env-merge step substitutes
container-environment references inside the configuration's values. It is
modelled as a key-preserving substitution applied to every value. -/
def substituteContainerEnv (subst : String → String)
    (env : List (String × String)) : List (String × String) :=
  env.map (fun kv => (kv.1, subst kv.2))

/-- The `fillContainerEnv` function restricted to the remote environment
map it mutates: default the map, then substitute container env values. -/
def fillContainerEnv (remoteEnv : Option (List (String × String)))
    (subst : String → String) : List (String × String) :=
  substituteContainerEnv subst (defaultRemoteEnv remoteEnv)

/-- One result of the wrapped reader's Read: the bytes it placed in the
buffer, the count it returned, and its error value. -/
structure ReadResult where
  data : List Nat
  n : Nat
  err : Option String
deriving DecidableEq, Repr

/-- Two's-complement wrap of an integer into the int64 range, the effect
of Go's `int64` addition overflowing. -/
def wrapInt64 (x : Int) : Int := (x + 2 ^ 63) % 2 ^ 64 - 2 ^ 63

/-- Mutable state of a `progressReader`: the accumulated byte count (the
value of the `int64` field `bytesRead`, whose updates wrap on overflow)
and the time of the last progress message (in seconds). -/
structure ProgressState where
  bytesRead : Int
  lastMessage : Nat
deriving DecidableEq, Repr

/-- One call of `progressReader.Read` at time `now`, when the underlying
reader produced `r`: the count is added to the `int64` accumulator with
two's-complement wrap on overflow, a progress line is logged when more
than four seconds passed, and the underlying result is returned
unchanged. -/
def progressReaderRead (st : ProgressState) (now : Nat) (r : ReadResult) :
    ReadResult × ProgressState :=
  let bytes := wrapInt64 (st.bytesRead + (r.n : Int))
  if now - st.lastMessage > 4 then (r, ⟨bytes, now⟩)
  else (r, ⟨bytes, st.lastMessage⟩)

/-- A sequence of `progressReader.Read` calls, each given as the call time
paired with the underlying reader's result; returns the results handed to
the caller and the final state. -/
def progressReads (st : ProgressState) :
    List (Nat × ReadResult) → List ReadResult × ProgressState
  | [] => ([], st)
  | (now, r) :: rest =>
    let step := progressReaderRead st now r
    let tail := progressReads step.2 rest
    (step.1 :: tail.1, tail.2)

/-- Observable side effects of the IDE installer dispatch: a synchronous
installer invocation, a background task spawned through the single-instance
guard under a lock name, a logged (swallowed) error, and a synchronous
server start. -/
inductive IDEEffect where
  | install
  | spawn (lock : String)
  | logError
  | start
deriving DecidableEq, Repr

/-- Inputs of `setupVSCode`: the merged configuration's editor settings and
extensions, and the observed results of settings marshalling, the
synchronous Install call and the single-instance guard call. -/
structure VSCodeInputs where
  settings : List (String × String)
  extensions : List String
  marshalSettings : Except String String
  install : Except String Unit
  single : Except String Unit

/-- The `setupVSCode` function for one flavor: marshal settings when
non-empty, install synchronously, then spawn the per-flavor async
extension installer through the single-instance guard only when both
guards pass; the lock name is the flavor string with an "-async.pid"
suffix. -/
def setupVSCode (v : VSCodeInputs) (flavor : String) :
    Except String Unit × List IDEEffect :=
  match (if v.settings.length > 0 then v.marshalSettings
      else Except.ok "") with
  | Except.error e => (Except.error e, [])
  | Except.ok _ =>
    match v.install with
    | Except.error e => (Except.error e, [IDEEffect.install])
    | Except.ok _ =>
      if v.settings.length = 0 ∧ v.extensions.length = 0 then
        (Except.ok (), [IDEEffect.install])
      else if v.extensions.length = 0 then
        (Except.ok (), [IDEEffect.install])
      else
        (v.single,
          [IDEEffect.install, IDEEffect.spawn (flavor ++ "-async.pid")])

/-- Inputs of `setupOpenVSCode`, analogous to `VSCodeInputs` plus the
result of the synchronous server start. -/
structure OpenVSCodeInputs where
  settings : List (String × String)
  extensions : List String
  marshalSettings : Except String String
  install : Except String Unit
  single : Except String Unit
  serverStart : Except String Unit

/-- The `setupOpenVSCode` function: install, spawn the async extension
install through the guard when extensions are non-empty (its failure is
wrapped), then start the server synchronously. -/
def setupOpenVSCode (v : OpenVSCodeInputs) :
    Except String Unit × List IDEEffect :=
  match (if v.settings.length > 0 then v.marshalSettings
      else Except.ok "") with
  | Except.error e => (Except.error e, [])
  | Except.ok _ =>
    match v.install with
    | Except.error e => (Except.error e, [IDEEffect.install])
    | Except.ok _ =>
      if v.extensions.length > 0 then
        match v.single with
        | Except.error e =>
          (Except.error ("install extensions: " ++ e),
            [IDEEffect.install, IDEEffect.spawn "openvscode-async.pid"])
        | Except.ok _ =>
          (v.serverStart,
            [IDEEffect.install, IDEEffect.spawn "openvscode-async.pid",
              IDEEffect.start])
      else (v.serverStart, [IDEEffect.install, IDEEffect.start])

/-- The closed set of IDE kinds dispatched by `installIDE`, plus a case
for any unrecognised name, on which the switch falls through. -/
inductive IDEKind where
  | none
  | vscode
  | vscodeInsiders
  | cursor
  | positron
  | codium
  | windsurf
  | openvscode
  | goland
  | rustRover
  | pycharm
  | phpStorm
  | intellij
  | clion
  | rider
  | rubyMine
  | webStorm
  | dataSpell
  | fleet
  | jupyterNotebook
  | rstudio
  | unknown (name : String)
deriving DecidableEq, Repr

/-- The VSCode-family kinds, which share the `setupVSCode` installer. -/
def IDEKind.isVSCodeFamily : IDEKind → Bool
  | IDEKind.vscode => true
  | IDEKind.vscodeInsiders => true
  | IDEKind.cursor => true
  | IDEKind.positron => true
  | IDEKind.codium => true
  | IDEKind.windsurf => true
  | _ => false

/-- The JetBrains-family kinds, which install synchronously and propagate
failure. -/
def IDEKind.isJetBrains : IDEKind → Bool
  | IDEKind.goland => true
  | IDEKind.rustRover => true
  | IDEKind.pycharm => true
  | IDEKind.phpStorm => true
  | IDEKind.intellij => true
  | IDEKind.clion => true
  | IDEKind.rider => true
  | IDEKind.rubyMine => true
  | IDEKind.webStorm => true
  | IDEKind.dataSpell => true
  | _ => false

/-- Inputs of `installIDE`: the per-variant sub-model inputs, the observed
result of the variant's synchronous Install call (JetBrains family, Fleet,
Jupyter, RStudio), and the flavor string constant each VSCode-family kind
is dispatched with (the `vscode.Flavor` constants live outside src/). -/
structure IDEInputs where
  vscode : VSCodeInputs
  openVSCode : OpenVSCodeInputs
  install : Except String Unit
  flavorOf : IDEKind → String

/-- The `installIDE` dispatch: "none" is a no-op success, VSCode-family
kinds go through `setupVSCode`, OpenVSCode through `setupOpenVSCode`,
JetBrains-family, Fleet and Jupyter install synchronously and propagate
their error, and an RStudio install failure is logged and swallowed. An
unrecognised kind falls through to success. -/
def installIDE (kind : IDEKind) (inp : IDEInputs) :
    Except String Unit × List IDEEffect :=
  match kind with
  | IDEKind.none => (Except.ok (), [])
  | IDEKind.vscode => setupVSCode inp.vscode (inp.flavorOf IDEKind.vscode)
  | IDEKind.vscodeInsiders =>
    setupVSCode inp.vscode (inp.flavorOf IDEKind.vscodeInsiders)
  | IDEKind.cursor => setupVSCode inp.vscode (inp.flavorOf IDEKind.cursor)
  | IDEKind.positron =>
    setupVSCode inp.vscode (inp.flavorOf IDEKind.positron)
  | IDEKind.codium => setupVSCode inp.vscode (inp.flavorOf IDEKind.codium)
  | IDEKind.windsurf =>
    setupVSCode inp.vscode (inp.flavorOf IDEKind.windsurf)
  | IDEKind.openvscode => setupOpenVSCode inp.openVSCode
  | IDEKind.goland => (inp.install, [IDEEffect.install])
  | IDEKind.rustRover => (inp.install, [IDEEffect.install])
  | IDEKind.pycharm => (inp.install, [IDEEffect.install])
  | IDEKind.phpStorm => (inp.install, [IDEEffect.install])
  | IDEKind.intellij => (inp.install, [IDEEffect.install])
  | IDEKind.clion => (inp.install, [IDEEffect.install])
  | IDEKind.rider => (inp.install, [IDEEffect.install])
  | IDEKind.rubyMine => (inp.install, [IDEEffect.install])
  | IDEKind.webStorm => (inp.install, [IDEEffect.install])
  | IDEKind.dataSpell => (inp.install, [IDEEffect.install])
  | IDEKind.fleet => (inp.install, [IDEEffect.install])
  | IDEKind.jupyterNotebook => (inp.install, [IDEEffect.install])
  | IDEKind.rstudio =>
    match inp.install with
    | Except.error _ => (Except.ok (), [IDEEffect.install, IDEEffect.logError])
    | Except.ok _ => (Except.ok (), [IDEEffect.install])
  | IDEKind.unknown _ => (Except.ok (), [])

/-- The orchestration steps of `SetupContainerCmd.Run`, in the order the
code attempts them. `logGitCredentialsError` records the error log emitted
when git credential configuration fails. -/
inductive Step where
  | ping
  | decodeWorkspaceInfo
  | decompressSetupInfo
  | unmarshalSetupInfo
  | streamMounts
  | dockerlessBuild
  | fillContainerEnv
  | configureGitCredentials
  | logGitCredentialsError
  | cloneRepository
  | setupContainer
  | installIDE
  | startDaemon
  | marshalResult
  | sendResult
deriving DecidableEq, Repr

/-- Sequencing helper for the orchestrator: record the step in the trace;
on error return it (wrapped) immediately, otherwise continue. -/
def stepThen (s : Step) (r : Except String Unit) (wrap : String → String)
    (trace : List Step) (k : List Step → Except String Unit × List Step) :
    Except String Unit × List Step :=
  match r with
  | Except.error e => (Except.error (wrap e), trace ++ [s])
  | Except.ok _ => k (trace ++ [s])

/-- Inputs of `SetupContainerCmd.Run`: the command's flags, the decoded
workspace options the control flow reads, and the observed result of every
fallible call, with the sub-models (`syncMounts`, `dockerlessBuild`,
`installIDE`) plugged in through their own inputs. -/
structure RunInput where
  newTunnelClient : Except String Unit
  ping : Except String Unit
  decodeWorkspaceInfo : Except String Unit
  decompress : Except String Unit
  unmarshal : Except String Unit
  streamMountsFlag : Bool
  reset : Bool
  readDir : String → DirRead
  streamMount : Mount → Except String Unit
  mounts : List Mount
  dockerless : DockerlessEnv
  buildInfoFolder : String
  contextFeatureFolder : String
  fillEnv : Except String Unit
  injectGitCredentials : Bool
  configureGitCredentials : Except String Unit
  pullFromInsideContainer : Option Bool
  gitDirExists : Bool
  recreate : Bool
  clone : Except String Unit
  setupContainer : Except String Unit
  ideKind : IDEKind
  ide : IDEInputs
  platformEnabled : Bool
  disableDaemon : Bool
  containerTimeout : String
  daemon : Except String Unit
  marshalResult : Except String Unit
  sendResult : Except String Unit

/-- The `SetupContainerCmd.Run` orchestrator: the strictly sequential
workflow with its conditional steps, returning the final result and the
ordered trace of steps attempted. -/
def run (i : RunInput) : Except String Unit × List Step :=
  match i.newTunnelClient with
  | Except.error e =>
    (Except.error ("error creating tunnel client: " ++ e), [])
  | Except.ok _ =>
    stepThen Step.ping i.ping (fun e => "ping client: " ++ e) []
      (fun t₁ =>
    stepThen Step.decodeWorkspaceInfo i.decodeWorkspaceInfo id t₁ (fun t₂ =>
    stepThen Step.decompressSetupInfo i.decompress id t₂ (fun t₃ =>
    stepThen Step.unmarshalSetupInfo i.unmarshal id t₃ (fun t₄ =>
    let afterMounts :
        List Step → (List Step → Except String Unit × List Step) →
          Except String Unit × List Step :=
      fun t k =>
        if i.streamMountsFlag then
          match (syncMounts i.reset i.readDir i.streamMount i.mounts).2 with
          | some e => (Except.error e, t ++ [Step.streamMounts])
          | none => k (t ++ [Step.streamMounts])
        else k t
    afterMounts t₄ (fun t₅ =>
    stepThen Step.dockerlessBuild
      (dockerlessBuild i.dockerless i.buildInfoFolder
        i.contextFeatureFolder).1
      (fun e => "dockerless build: " ++ e) t₅ (fun t₆ =>
    stepThen Step.fillContainerEnv i.fillEnv id t₆ (fun t₇ =>
    let afterGitCreds :
        List Step → (List Step → Except String Unit × List Step) →
          Except String Unit × List Step :=
      fun t k =>
        if i.injectGitCredentials then
          match i.configureGitCredentials with
          | Except.error _ =>
            k (t ++ [Step.configureGitCredentials,
              Step.logGitCredentialsError])
          | Except.ok _ => k (t ++ [Step.configureGitCredentials])
        else k t
    afterGitCreds t₇ (fun t₈ =>
    let afterClone :
        List Step → (List Step → Except String Unit × List Step) →
          Except String Unit × List Step :=
      fun t k =>
        match i.pullFromInsideContainer with
        | some true =>
          if i.gitDirExists ∧ !i.recreate then k t
          else stepThen Step.cloneRepository i.clone id t k
        | _ => k t
    afterClone t₈ (fun t₉ =>
    stepThen Step.setupContainer i.setupContainer id t₉ (fun t₁₀ =>
    stepThen Step.installIDE (installIDE i.ideKind i.ide).1 id t₁₀
      (fun t₁₁ =>
    let afterDaemon :
        List Step → (List Step → Except String Unit × List Step) →
          Except String Unit × List Step :=
      fun t k =>
        if !i.platformEnabled ∧ !i.disableDaemon ∧
            i.containerTimeout ≠ "" then
          stepThen Step.startDaemon i.daemon id t k
        else k t
    afterDaemon t₁₁ (fun t₁₂ =>
    stepThen Step.marshalResult i.marshalResult
      (fun e => "marshal setup info: " ++ e) t₁₂ (fun t₁₃ =>
    stepThen Step.sendResult i.sendResult (fun e => "send result: " ++ e)
      t₁₃ (fun t₁₄ => (Except.ok (), t₁₄)))))))))))))))

/-- Whether a Go-style fallible result is a success (`err == nil`). -/
def isOk {α : Type} : Except String α → Bool
  | Except.ok _ => true
  | Except.error _ => false

/-- A concrete `DockerlessEnv` on which every external call succeeds and
the build-info directory is already in place. -/
def witnessDockerlessEnv : DockerlessEnv where
  dockerlessVar := "true"
  imageConfigExists := false
  contextVar := "/workspace/ctx"
  buildInfoDirExists := true
  renameFromFallback := Except.ok ()
  buildInfoDirExistsAfter := true
  executablePath := Except.ok "/usr/local/bin/devpod"
  disableDockerCredentials := "true"
  ignorePaths := ""
  registryCache := ""
  goos := "linux"
  goarch := "amd64"
  workspaceFolder := "/workspaces/demo"
  mounts := []
  readDir := fun _ => DirRead.err
  builderRun := Except.ok ()
  readConfigFile := Except.ok "raw"
  parseConfig := Except.ok []
  finalRename := Except.ok ()
  debug := false

/-- A concrete `DockerlessEnv` with the daemon-less build mode variable
unset. -/
def offDockerlessEnv : DockerlessEnv :=
  { witnessDockerlessEnv with dockerlessVar := "" }

/-- Concrete `VSCodeInputs` with one extension and all calls succeeding. -/
def witnessVSCodeInputs : VSCodeInputs where
  settings := []
  extensions := ["ms-python.python"]
  marshalSettings := Except.ok ""
  install := Except.ok ()
  single := Except.ok ()

/-- Concrete `OpenVSCodeInputs` with all calls succeeding. -/
def witnessOpenVSCodeInputs : OpenVSCodeInputs where
  settings := []
  extensions := ["ms-python.python"]
  marshalSettings := Except.ok ""
  install := Except.ok ()
  single := Except.ok ()
  serverStart := Except.ok ()

/-- Concrete `IDEInputs` with all calls succeeding. -/
def witnessIDEInputs : IDEInputs where
  vscode := witnessVSCodeInputs
  openVSCode := witnessOpenVSCodeInputs
  install := Except.ok ()
  flavorOf := fun _ => "stable"

/-- Concrete IDE inputs on which every variant's Install call fails. -/
def failingIDEInputs : IDEInputs :=
  { witnessIDEInputs with
    install := Except.error "boom"
    vscode := { witnessVSCodeInputs with install := Except.error "boom" }
    openVSCode :=
      { witnessOpenVSCodeInputs with install := Except.error "boom" } }

/-- A concrete `RunInput` on which every step succeeds. -/
def witnessRunInput : RunInput where
  newTunnelClient := Except.ok ()
  ping := Except.ok ()
  decodeWorkspaceInfo := Except.ok ()
  decompress := Except.ok ()
  unmarshal := Except.ok ()
  streamMountsFlag := false
  reset := false
  readDir := fun _ => DirRead.err
  streamMount := fun _ => Except.ok ()
  mounts := []
  dockerless := offDockerlessEnv
  buildInfoFolder := "/workspace-info"
  contextFeatureFolder := ".devpod-internal"
  fillEnv := Except.ok ()
  injectGitCredentials := true
  configureGitCredentials := Except.ok ()
  pullFromInsideContainer := some true
  gitDirExists := true
  recreate := false
  clone := Except.ok ()
  setupContainer := Except.ok ()
  ideKind := IDEKind.none
  ide := witnessIDEInputs
  platformEnabled := false
  disableDaemon := true
  containerTimeout := ""
  daemon := Except.ok ()
  marshalResult := Except.ok ()
  sendResult := Except.ok ()

/-- All the orchestrator's fallible calls succeed on this input. -/
def RunInput.allOk (i : RunInput) : Prop :=
  i.newTunnelClient = Except.ok () ∧ i.ping = Except.ok () ∧
    i.decodeWorkspaceInfo = Except.ok () ∧ i.decompress = Except.ok () ∧
    i.unmarshal = Except.ok () ∧
    (syncMounts i.reset i.readDir i.streamMount i.mounts).2 = none ∧
    (dockerlessBuild i.dockerless i.buildInfoFolder
      i.contextFeatureFolder).1 = Except.ok () ∧
    i.fillEnv = Except.ok () ∧ i.configureGitCredentials = Except.ok () ∧
    i.clone = Except.ok () ∧ i.setupContainer = Except.ok () ∧
    (installIDE i.ideKind i.ide).1 = Except.ok () ∧
    i.daemon = Except.ok () ∧ i.marshalResult = Except.ok () ∧
    i.sendResult = Except.ok ()

/-- An all-whitespace string trims to the empty string. -/
lemma trimSpace_of_all_space (s : String)
    (h : s.data.all isGoSpace = true) : trimSpace s = "" := by
  have h1 : s.data.dropWhile isGoSpace = [] := by
    rw [List.dropWhile_eq_nil_iff]
    intro x hx
    exact List.all_eq_true.mp h x hx
  simp [trimSpace, h1]

/-- C6: `parseIgnorePaths` applied to an empty or whitespace-only string
returns the empty list; applied to "a, b,c" it returns exactly the list
alternating the "--ignore-path" flag with the trimmed elements. -/
theorem parseIgnorePaths_spec :
    (∀ s : String, s.data.all isGoSpace = true → parseIgnorePaths s = []) ∧
    parseIgnorePaths "a, b,c" =
      ["--ignore-path", "a", "--ignore-path", "b", "--ignore-path", "c"] := by
  constructor
  · intro s h
    simp [parseIgnorePaths, trimSpace_of_all_space s h]
  · decide

/-- Witness for C6 at the whitespace-only input " \t " and the empty
input. -/
theorem parseIgnorePaths_spec_witness :
    " \t ".data.all isGoSpace = true ∧ parseIgnorePaths " \t " = [] ∧
      parseIgnorePaths "" = [] :=
  ⟨by decide, parseIgnorePaths_spec.1 " \t " (by decide),
    parseIgnorePaths_spec.1 "" (by decide)⟩

/-- Wrapping the left summand again does not change a wrapped sum. -/
lemma wrapInt64_wrapInt64_add (a b : Int) :
    wrapInt64 (wrapInt64 a + b) = wrapInt64 (a + b) := by
  unfold wrapInt64
  omega

/-- An integer already in the int64 range is fixed by the wrap. -/
lemma wrapInt64_of_range (x : Int) (h0 : -(2 ^ 63) ≤ x)
    (h1 : x < 2 ^ 63) : wrapInt64 x = x := by
  unfold wrapInt64
  omega

/-- The wrap always lands in the int64 range. -/
lemma wrapInt64_mem_range (x : Int) :
    -(2 ^ 63) ≤ wrapInt64 x ∧ wrapInt64 x < 2 ^ 63 := by
  unfold wrapInt64
  omega

/-- One `progressReader.Read` call hands the underlying result through. -/
lemma progressReaderRead_fst (st : ProgressState) (now : Nat)
    (r : ReadResult) : (progressReaderRead st now r).1 = r := by
  unfold progressReaderRead
  split <;> rfl

/-- One `progressReader.Read` call adds the count with int64 wrap. -/
lemma progressReaderRead_bytes (st : ProgressState) (now : Nat)
    (r : ReadResult) : (progressReaderRead st now r).2.bytesRead =
      wrapInt64 (st.bytesRead + (r.n : Int)) := by
  unfold progressReaderRead
  split <;> rfl

/-- Every read result is handed through unchanged. -/
lemma progressReads_fst (st : ProgressState)
    (reads : List (Nat × ReadResult)) :
    (progressReads st reads).1 = reads.map Prod.snd := by
  induction reads generalizing st with
  | nil => simp [progressReads]
  | cons p rest ih =>
    obtain ⟨now, r⟩ := p
    simp [progressReads, progressReaderRead_fst, ih]

/-- The byte counts handed back by a read sequence are non-negative. -/
lemma reads_sum_nonneg (reads : List (Nat × ReadResult)) :
    0 ≤ (reads.map (fun p => (p.2.n : Int))).sum := by
  induction reads with
  | nil => simp
  | cons p rest ih =>
    simp only [List.map_cons, List.sum_cons]
    have := Int.natCast_nonneg p.2.n
    omega

/-- Starting from an in-range accumulator, the accumulator after a read
sequence is the initial value plus the sum of the counts, wrapped to
int64. -/
lemma progressReads_bytes_wrap (reads : List (Nat × ReadResult))
    (st : ProgressState) (hlo : -(2 ^ 63) ≤ st.bytesRead)
    (hhi : st.bytesRead < 2 ^ 63) :
    (progressReads st reads).2.bytesRead =
      wrapInt64 (st.bytesRead +
        (reads.map (fun p => (p.2.n : Int))).sum) := by
  induction reads generalizing st with
  | nil =>
    simp [progressReads, wrapInt64_of_range st.bytesRead hlo hhi]
  | cons p rest ih =>
    obtain ⟨now, r⟩ := p
    have hrange := wrapInt64_mem_range (st.bytesRead + (r.n : Int))
    have htail := ih (progressReaderRead st now r).2
      (by rw [progressReaderRead_bytes]; exact hrange.1)
      (by rw [progressReaderRead_bytes]; exact hrange.2)
    simp only [progressReads, htail, progressReaderRead_bytes,
      wrapInt64_wrapInt64_add, List.map_cons, List.sum_cons]
    rw [Int.add_assoc]

/-- When the total never leaves the non-negative int64 range, no wrap
occurs and the accumulator is the exact sum. -/
lemma progressReads_bytes_exact (reads : List (Nat × ReadResult))
    (st : ProgressState) (h0 : 0 ≤ st.bytesRead)
    (h1 : st.bytesRead + (reads.map (fun p => (p.2.n : Int))).sum <
      2 ^ 63) :
    (progressReads st reads).2.bytesRead =
      st.bytesRead + (reads.map (fun p => (p.2.n : Int))).sum := by
  induction reads generalizing st with
  | nil => simp [progressReads]
  | cons p rest ih =>
    obtain ⟨now, r⟩ := p
    have hrest := reads_sum_nonneg rest
    have hn := Int.natCast_nonneg r.n
    simp only [List.map_cons, List.sum_cons] at h1
    have hmid : wrapInt64 (st.bytesRead + (r.n : Int)) =
        st.bytesRead + (r.n : Int) := by
      apply wrapInt64_of_range
      · omega
      · omega
    have htail := ih (progressReaderRead st now r).2
      (by rw [progressReaderRead_bytes, hmid]; omega)
      (by rw [progressReaderRead_bytes, hmid]; omega)
    simp only [progressReads, htail, progressReaderRead_bytes, hmid,
      List.map_cons, List.sum_cons]
    rw [Int.add_assoc]

/-- C10 counterexample: starting from a fresh reader, two reads of 2^62
bytes each wrap the int64 accumulator to -2^63, so `bytesRead` does not
equal the sum of the counts returned so far. -/
theorem progressReader_bytesRead_overflow :
    (progressReads ⟨0, 0⟩
        [(0, ⟨[], 2 ^ 62, none⟩),
          (0, ⟨[], 2 ^ 62, none⟩)]).2.bytesRead = -(2 ^ 63) ∧
    ¬ (progressReads ⟨0, 0⟩
        [(0, ⟨[], 2 ^ 62, none⟩),
          (0, ⟨[], 2 ^ 62, none⟩)]).2.bytesRead =
      (0 : Int) +
        ([((0 : Nat), (⟨[], 2 ^ 62, none⟩ : ReadResult)),
          (0, ⟨[], 2 ^ 62, none⟩)].map (fun p => (p.2.n : Int))).sum := by
  constructor
  · simp [progressReads, progressReaderRead, wrapInt64]
  · simp [progressReads, progressReaderRead, wrapInt64]

/-- C10 amended: every `progressReader.Read` call returns exactly the
underlying reader's result (bytes, count and error are unaltered), and
after any sequence of reads the int64 `bytesRead` accumulator equals its
initial value plus the sum of all counts returned so far, reduced by
two's-complement int64 wrapping; in particular it equals the exact sum
whenever that sum stays below 2^63. -/
theorem progressReader_read_spec (st : ProgressState)
    (reads : List (Nat × ReadResult)) (hlo : -(2 ^ 63) ≤ st.bytesRead)
    (hhi : st.bytesRead < 2 ^ 63) :
    (progressReads st reads).1 = reads.map Prod.snd ∧
    (progressReads st reads).2.bytesRead =
      wrapInt64 (st.bytesRead +
        (reads.map (fun p => (p.2.n : Int))).sum) ∧
    (0 ≤ st.bytesRead →
      st.bytesRead + (reads.map (fun p => (p.2.n : Int))).sum < 2 ^ 63 →
      (progressReads st reads).2.bytesRead =
        st.bytesRead + (reads.map (fun p => (p.2.n : Int))).sum) :=
  ⟨progressReads_fst st reads, progressReads_bytes_wrap reads st hlo hhi,
    fun h0 h1 => progressReads_bytes_exact reads st h0 h1⟩

/-- Witness for C10's amended theorem: a fresh reader handed two concrete
results returns them unchanged and accumulates exactly three bytes. -/
theorem progressReader_read_spec_witness :
    (-(2 ^ 63) : Int) ≤ 0 ∧ (0 : Int) < 2 ^ 63 ∧
    (progressReads ⟨0, 0⟩
        [(0, ⟨[7], 1, none⟩), (10, ⟨[3, 4], 2, some "EOF"⟩)]).1 =
      [⟨[7], 1, none⟩, ⟨[3, 4], 2, some "EOF"⟩] ∧
    (progressReads ⟨0, 0⟩
        [(0, ⟨[7], 1, none⟩),
          (10, ⟨[3, 4], 2, some "EOF"⟩)]).2.bytesRead = 3 := by
  have h := progressReader_read_spec ⟨0, 0⟩
    [(0, ⟨[7], 1, none⟩), (10, ⟨[3, 4], 2, some "EOF"⟩)]
    (by norm_num) (by norm_num)
  refine ⟨by norm_num, by norm_num, ?_, ?_⟩
  · simpa using h.1
  · have h3 := h.2.2 (by norm_num) (by norm_num)
    simpa using h3

/-- Lookup commutes with the key-preserving value substitution. -/
lemma lookup_substituteContainerEnv (f : String → String) (k : String)
    (l : List (String × String)) :
    (substituteContainerEnv f l).lookup k = (l.lookup k).map f := by
  induction l with
  | nil => simp [substituteContainerEnv]
  | cons kv t ih =>
    obtain ⟨a, b⟩ := kv
    by_cases h : k = a
    · simp [substituteContainerEnv, List.lookup, h]
    · have hb : (k == a) = false := by
        simp [h]
      simp only [substituteContainerEnv, List.map_cons, List.lookup, hb]
      exact ih

/-- The defaulting step always leaves a "PATH" entry in the map. -/
lemma defaultRemoteEnv_lookup_isSome
    (remoteEnv : Option (List (String × String))) :
    (((defaultRemoteEnv remoteEnv).lookup "PATH").isSome) = true := by
  unfold defaultRemoteEnv
  cases h : (remoteEnv.getD []).lookup "PATH" with
  | none => simp [h, List.lookup]
  | some v => simp [h]

/-- C9: after `fillContainerEnv` the remote environment map contains a
"PATH" key; when the input map (nil included) lacks "PATH", the value
"$\x7bcontainerEnv:PATH\x7d" is inserted by the defaulting step before
container-environment substitution, and an already-present "PATH" entry is
left unchanged by that defaulting step. -/
theorem fillContainerEnv_spec
    (remoteEnv : Option (List (String × String)))
    (subst : String → String) :
    (((fillContainerEnv remoteEnv subst).lookup "PATH").isSome) = true ∧
    ((remoteEnv.getD []).lookup "PATH" = none →
      (defaultRemoteEnv remoteEnv).lookup "PATH" =
        some "$\x7bcontainerEnv:PATH\x7d") ∧
    (∀ v, (remoteEnv.getD []).lookup "PATH" = some v →
      defaultRemoteEnv remoteEnv = remoteEnv.getD []) := by
  refine ⟨?_, ?_, ?_⟩
  · unfold fillContainerEnv
    rw [lookup_substituteContainerEnv]
    have h := defaultRemoteEnv_lookup_isSome remoteEnv
    cases hl : (defaultRemoteEnv remoteEnv).lookup "PATH" with
    | none => rw [hl] at h; simp at h
    | some v => simp
  · intro h
    simp [defaultRemoteEnv, h, List.lookup]
  · intro v h
    simp [defaultRemoteEnv, h]

/-- Witness for C9: a map lacking "PATH" gets the default entry, a map
with "PATH" is unchanged by the defaulting step, and the result map always
has "PATH". -/
theorem fillContainerEnv_spec_witness :
    (((fillContainerEnv (some [("TERM", "xterm")]) id).lookup
      "PATH").isSome) = true ∧
    ([("TERM", "xterm")].lookup "PATH" = none) ∧
    (defaultRemoteEnv (some [("TERM", "xterm")])).lookup "PATH" =
      some "$\x7bcontainerEnv:PATH\x7d" ∧
    ([("PATH", "/usr/bin")].lookup "PATH" = some "/usr/bin") ∧
    defaultRemoteEnv (some [("PATH", "/usr/bin")]) = [("PATH", "/usr/bin")] :=
  ⟨(fillContainerEnv_spec (some [("TERM", "xterm")]) id).1, by decide,
    (fillContainerEnv_spec (some [("TERM", "xterm")]) id).2.1 (by decide),
    by decide,
    (fillContainerEnv_spec (some [("PATH", "/usr/bin")]) id).2.2 "/usr/bin"
      (by decide)⟩

/-- When the synchronous Install call of `setupVSCode` fails (and settings
marshalling did not), that error is returned and nothing is spawned. -/
lemma setupVSCode_install_error (v : VSCodeInputs) (flavor : String)
    (e : String) (hm : isOk v.marshalSettings = true)
    (hi : v.install = Except.error e) :
    setupVSCode v flavor = (Except.error e, [IDEEffect.install]) := by
  cases hms : v.marshalSettings with
  | error e₂ =>
    rw [hms] at hm
    simp [isOk] at hm
  | ok out =>
    by_cases hs : v.settings.length > 0 <;>
      simp [setupVSCode, hms, hi, hs]

/-- When the synchronous Install call of `setupOpenVSCode` fails (and
settings marshalling did not), that error is returned and nothing is
spawned. -/
lemma setupOpenVSCode_install_error (v : OpenVSCodeInputs) (e : String)
    (hm : isOk v.marshalSettings = true)
    (hi : v.install = Except.error e) :
    setupOpenVSCode v = (Except.error e, [IDEEffect.install]) := by
  cases hms : v.marshalSettings with
  | error e₂ =>
    rw [hms] at hm
    simp [isOk] at hm
  | ok out =>
    by_cases hs : v.settings.length > 0 <;>
      simp [setupOpenVSCode, hms, hi, hs]

/-- C4: for every VSCode-family flavor, when the merged configuration's
extension list is non-empty `setupVSCode` spawns exactly one background
async-install task through the single-instance guard, under the lock name
formed from the flavor; when the extension list is empty (settings may be
non-empty), no background task is spawned and the call returns success
right after the synchronous Install. -/
theorem setupVSCode_spec (v : VSCodeInputs) (flavor : String)
    (hm : isOk v.marshalSettings = true) (hi : v.install = Except.ok ()) :
    (v.extensions ≠ [] →
      (setupVSCode v flavor).2 =
        [IDEEffect.install, IDEEffect.spawn (flavor ++ "-async.pid")]) ∧
    (v.extensions = [] →
      setupVSCode v flavor = (Except.ok (), [IDEEffect.install])) := by
  cases hms : v.marshalSettings with
  | error e =>
    rw [hms] at hm
    simp [isOk] at hm
  | ok out =>
    constructor
    · intro hne
      have hlen : v.extensions.length ≠ 0 := by
        simpa [List.length_eq_zero] using hne
      by_cases hs : v.settings.length > 0 <;>
        simp [setupVSCode, hms, hi, hs, hlen]
    · intro hemp
      by_cases hs : v.settings.length > 0 <;>
        simp [setupVSCode, hms, hi, hs, hemp]

/-- Witness for C4: with one extension a single background task is spawned
under the flavor-derived lock name; with no extensions but non-empty
settings the call succeeds with no spawned task. -/
theorem setupVSCode_spec_witness :
    isOk witnessVSCodeInputs.marshalSettings = true ∧
    witnessVSCodeInputs.install = Except.ok () ∧
    witnessVSCodeInputs.extensions ≠ [] ∧
    (setupVSCode witnessVSCodeInputs "stable").2 =
      [IDEEffect.install, IDEEffect.spawn "stable-async.pid"] ∧
    setupVSCode
        { witnessVSCodeInputs with
          extensions := []
          settings := [("editor.tabSize", "2")] } "stable" =
      (Except.ok (), [IDEEffect.install]) :=
  ⟨rfl, rfl, by decide,
    by
      have h :=
        (setupVSCode_spec witnessVSCodeInputs "stable" rfl rfl).1 (by decide)
      simpa using h,
    (setupVSCode_spec
      { witnessVSCodeInputs with
        extensions := []
        settings := [("editor.tabSize", "2")] } "stable" rfl rfl).2 rfl⟩

/-- C5: in the IDE dispatch, an RStudio Install failure is logged and
swallowed (`installIDE` still succeeds); an Install failure of any
JetBrains-family, Fleet, Jupyter, VSCode-family or OpenVSCode variant is
returned as the error of `installIDE`; kind "none" succeeds with no side
effect. -/
theorem installIDE_spec (inp : IDEInputs) (e : String) :
    installIDE IDEKind.none inp = (Except.ok (), []) ∧
    (inp.install = Except.error e →
      installIDE IDEKind.rstudio inp =
        (Except.ok (), [IDEEffect.install, IDEEffect.logError])) ∧
    (inp.install = Except.error e → ∀ k : IDEKind,
      k.isJetBrains = true ∨ k = IDEKind.fleet ∨
        k = IDEKind.jupyterNotebook →
      installIDE k inp = (Except.error e, [IDEEffect.install])) ∧
    (inp.vscode.install = Except.error e →
      isOk inp.vscode.marshalSettings = true → ∀ k : IDEKind,
      k.isVSCodeFamily = true → (installIDE k inp).1 = Except.error e) ∧
    (inp.openVSCode.install = Except.error e →
      isOk inp.openVSCode.marshalSettings = true →
      (installIDE IDEKind.openvscode inp).1 = Except.error e) := by
  refine ⟨rfl, ?_, ?_, ?_, ?_⟩
  · intro h
    simp [installIDE, h]
  · intro h k hk
    cases k <;> simp_all [IDEKind.isJetBrains, installIDE]
  · intro h hm k hk
    cases k <;>
      simp_all [IDEKind.isVSCodeFamily, installIDE,
        setupVSCode_install_error inp.vscode _ e hm h]
  · intro h hm
    simp [installIDE, setupOpenVSCode_install_error inp.openVSCode e hm h]

/-- Witness for C5 at concrete failing inputs: RStudio swallows the error,
Goland, Fleet, VSCode and OpenVSCode propagate it, and "none" has no
effect. -/
theorem installIDE_spec_witness :
    installIDE IDEKind.none failingIDEInputs = (Except.ok (), []) ∧
    failingIDEInputs.install = Except.error "boom" ∧
    installIDE IDEKind.rstudio failingIDEInputs =
      (Except.ok (), [IDEEffect.install, IDEEffect.logError]) ∧
    installIDE IDEKind.goland failingIDEInputs =
      (Except.error "boom", [IDEEffect.install]) ∧
    installIDE IDEKind.fleet failingIDEInputs =
      (Except.error "boom", [IDEEffect.install]) ∧
    (installIDE IDEKind.vscode failingIDEInputs).1 = Except.error "boom" ∧
    (installIDE IDEKind.openvscode failingIDEInputs).1 =
      Except.error "boom" :=
  ⟨(installIDE_spec failingIDEInputs "boom").1, rfl,
    (installIDE_spec failingIDEInputs "boom").2.1 rfl,
    (installIDE_spec failingIDEInputs "boom").2.2.1 rfl IDEKind.goland
      (Or.inl rfl),
    (installIDE_spec failingIDEInputs "boom").2.2.1 rfl IDEKind.fleet
      (Or.inr (Or.inl rfl)),
    (installIDE_spec failingIDEInputs "boom").2.2.2.1 rfl rfl IDEKind.vscode
      rfl,
    (installIDE_spec failingIDEInputs "boom").2.2.2.2 rfl rfl⟩

/-- C2: `dockerlessBuild` returns success with no side effect whenever the
daemon-less build mode variable is not "true", or the image-config marker
file already exists, or the build-context variable is empty. -/
theorem dockerlessBuild_noop (env : DockerlessEnv) (bf cf : String)
    (h : env.dockerlessVar ≠ "true" ∨ env.imageConfigExists = true ∨
      env.contextVar = "") :
    dockerlessBuild env bf cf = (Except.ok (), []) := by
  rcases h with h | h | h
  · simp [dockerlessBuild, h]
  · by_cases h1 : env.dockerlessVar ≠ "true" <;>
      simp [dockerlessBuild, h1, h]
  · by_cases h1 : env.dockerlessVar ≠ "true" <;>
      by_cases h2 : env.imageConfigExists <;>
        simp [dockerlessBuild, h1, h2, h]

/-- Witness for C2 at the three concrete precondition variants: mode
variable unset, marker file present, and empty build context. -/
theorem dockerlessBuild_noop_witness :
    offDockerlessEnv.dockerlessVar ≠ "true" ∧
    dockerlessBuild offDockerlessEnv "/b" "/f" = (Except.ok (), []) ∧
    ({ witnessDockerlessEnv with
      imageConfigExists := true }).imageConfigExists = true ∧
    dockerlessBuild { witnessDockerlessEnv with imageConfigExists := true }
      "/b" "/f" = (Except.ok (), []) ∧
    ({ witnessDockerlessEnv with contextVar := "" }).contextVar = "" ∧
    dockerlessBuild { witnessDockerlessEnv with contextVar := "" }
      "/b" "/f" = (Except.ok (), []) :=
  ⟨by decide,
    dockerlessBuild_noop offDockerlessEnv "/b" "/f" (Or.inl (by decide)),
    rfl,
    dockerlessBuild_noop
      { witnessDockerlessEnv with imageConfigExists := true } "/b" "/f"
      (Or.inr (Or.inl rfl)),
    rfl,
    dockerlessBuild_noop { witnessDockerlessEnv with contextVar := "" }
      "/b" "/f" (Or.inr (Or.inr rfl))⟩

/-- C8 counterexample: at a concrete input that does invoke the builder,
the subprocess's stderr is routed to the logger at info level, not at
error level as claimed. -/
theorem dockerlessBuild_stderr_not_error_level :
    builderStderrLevels
        (dockerlessBuild witnessDockerlessEnv "/b" "/f").2 =
      [some LogLevel.info] ∧
    ¬ builderStderrLevels
        (dockerlessBuild witnessDockerlessEnv "/b" "/f").2 =
      [some LogLevel.error] := by
  constructor
  · decide
  · decide

/-- Extracting stderr levels distributes over trace concatenation. -/
lemma builderStderrLevels_append (a b : List Effect) :
    builderStderrLevels (a ++ b) =
      builderStderrLevels a ++ builderStderrLevels b := by
  induction a with
  | nil => rfl
  | cons e rest ih => cases e <;> simp [builderStderrLevels, ih]

/-- Extracting stdout levels distributes over trace concatenation. -/
lemma builderStdoutLevels_append (a b : List Effect) :
    builderStdoutLevels (a ++ b) =
      builderStdoutLevels a ++ builderStdoutLevels b := by
  induction a with
  | nil => rfl
  | cons e rest ih => cases e <;> simp [builderStdoutLevels, ih]

/-- The recovery block never invokes the builder (stderr view). -/
lemma recoverBuildInfo_stderr (env : DockerlessEnv)
    (fb bd : String) :
    builderStderrLevels (recoverBuildInfo env fb bd).2 = [] := by
  unfold recoverBuildInfo
  repeat' split
  all_goals simp [builderStderrLevels]

/-- The recovery block never invokes the builder (stdout view). -/
lemma recoverBuildInfo_stdout (env : DockerlessEnv)
    (fb bd : String) :
    builderStdoutLevels (recoverBuildInfo env fb bd).2 = [] := by
  unfold recoverBuildInfo
  repeat' split
  all_goals simp [builderStdoutLevels]

/-- C8 amended: whenever the external builder subprocess is invoked its
stderr stream is routed to the structured logger at info level, and its
stdout stream is routed to the logger (at debug level) exactly when
verbose/debug logging is enabled, being discarded otherwise. -/
theorem dockerlessBuild_stream_routing (env : DockerlessEnv)
    (bf cf : String) :
    (∀ l ∈ builderStderrLevels (dockerlessBuild env bf cf).2,
      l = some LogLevel.info) ∧
    (∀ l ∈ builderStdoutLevels (dockerlessBuild env bf cf).2,
      l = if env.debug then some LogLevel.debug else none) := by
  constructor <;> intro l hl <;>
    (simp only [dockerlessBuild] at hl
     repeat' split at hl) <;>
    simp_all [builderStderrLevels, builderStdoutLevels,
      builderStderrLevels_append, builderStdoutLevels_append,
      recoverBuildInfo_stderr, recoverBuildInfo_stdout]

/-- Witness for C8's amended theorem at a concrete invocation. -/
theorem dockerlessBuild_stream_routing_witness :
    some LogLevel.info ∈
      builderStderrLevels
        (dockerlessBuild witnessDockerlessEnv "/b" "/f").2 ∧
    some LogLevel.info = some LogLevel.info ∧
    (none : Option LogLevel) ∈
      builderStdoutLevels
        (dockerlessBuild witnessDockerlessEnv "/b" "/f").2 ∧
    (none : Option LogLevel) =
      (if witnessDockerlessEnv.debug then some LogLevel.debug else none) :=
  ⟨by decide,
    (dockerlessBuild_stream_routing witnessDockerlessEnv "/b" "/f").1
      (some LogLevel.info) (by decide),
    by decide,
    (dockerlessBuild_stream_routing witnessDockerlessEnv "/b" "/f").2
      none (by decide)⟩

/-- C1: in the mount streaming loop, a mount whose target directory can be
read and is non-empty is never streamed when Reset is false; when Reset is
true the loop's behaviour is independent of the target directories'
contents, and (all streams succeeding) every configured mount is
streamed. -/
theorem syncMounts_spec (readDir : String → DirRead)
    (stream : Mount → Except String Unit) (ms : List Mount) (m : Mount) :
    ((readDir m.target).nonempty = true →
      m ∉ (syncMounts false readDir stream ms).1) ∧
    (∀ readDir2 : String → DirRead,
      syncMounts true readDir stream ms =
        syncMounts true readDir2 stream ms) ∧
    ((∀ m2, stream m2 = Except.ok ()) →
      (syncMounts true readDir stream ms).1 = ms) := by
  refine ⟨?_, ?_, ?_⟩
  · intro h
    induction ms with
    | nil => simp [syncMounts]
    | cons m2 rest ih =>
      by_cases hc : (readDir m2.target).nonempty = true
      · simpa [syncMounts, hc] using ih
      · have hne : m ≠ m2 := by
          intro he
          rw [he] at h
          exact hc h
        cases hs : stream m2 with
        | error e => simp [syncMounts, hc, hs, hne]
        | ok u =>
          simp [syncMounts, hc, hs, hne]
          exact ih
  · intro readDir2
    induction ms with
    | nil => rfl
    | cons m2 rest ih =>
      cases hs : stream m2 with
      | error e => simp [syncMounts, hs]
      | ok u => simp [syncMounts, hs, ih]
  · intro hall
    induction ms with
    | nil => rfl
    | cons m2 rest ih =>
      simp [syncMounts, hall m2, ih]

/-- Witness for C1: a mount with a non-empty target is skipped when
reset=false and streamed when reset=true. -/
theorem syncMounts_spec_witness :
    (((fun _ => DirRead.ok 1) "/tgt" : DirRead).nonempty) = true ∧
    (⟨"/src", "/tgt"⟩ : Mount) ∉
      (syncMounts false (fun _ => DirRead.ok 1) (fun _ => Except.ok ())
        [⟨"/src", "/tgt"⟩]).1 ∧
    (syncMounts true (fun _ => DirRead.ok 1) (fun _ => Except.ok ())
      [⟨"/src", "/tgt"⟩]).1 = [⟨"/src", "/tgt"⟩] :=
  ⟨rfl,
    (syncMounts_spec (fun _ => DirRead.ok 1) (fun _ => Except.ok ())
      [⟨"/src", "/tgt"⟩] ⟨"/src", "/tgt"⟩).1 rfl,
    (syncMounts_spec (fun _ => DirRead.ok 1) (fun _ => Except.ok ())
      [⟨"/src", "/tgt"⟩] ⟨"/src", "/tgt"⟩).2.2 (fun _ => rfl)⟩

/-- Sequencing a successful step continues with the step recorded. -/
lemma stepThen_ok (s : Step) (w : String → String) (t : List Step)
    (k : List Step → Except String Unit × List Step) :
    stepThen s (Except.ok ()) w t k = k (t ++ [s]) := rfl

/-- Sequencing a failed step stops with the wrapped error. -/
lemma stepThen_error (s : Step) (e : String) (w : String → String)
    (t : List Step) (k : List Step → Except String Unit × List Step) :
    stepThen s (Except.error e) w t k = (Except.error (w e), t ++ [s]) := rfl

set_option maxHeartbeats 4000000 in
/-- C3: when git-credential injection is requested and configuring the
system git credential helper fails, `Run` logs the error and still
executes the remaining steps (container setup, IDE install, result
report), finishing successfully; the failure of any other step makes `Run`
return that step's error without attempting the later steps. -/
theorem run_error_policy (i : RunInput) (e : String) (m : Mount)
    (hok : i.allOk) :
    (i.injectGitCredentials = true →
      (run { i with configureGitCredentials := Except.error e }).1 =
        Except.ok () ∧
      Step.logGitCredentialsError ∈
        (run { i with configureGitCredentials := Except.error e }).2 ∧
      Step.setupContainer ∈
        (run { i with configureGitCredentials := Except.error e }).2 ∧
      Step.installIDE ∈
        (run { i with configureGitCredentials := Except.error e }).2 ∧
      Step.sendResult ∈
        (run { i with configureGitCredentials := Except.error e }).2) ∧
    run { i with ping := Except.error e } =
      (Except.error ("ping client: " ++ e), [Step.ping]) ∧
    run { i with decodeWorkspaceInfo := Except.error e } =
      (Except.error e, [Step.ping, Step.decodeWorkspaceInfo]) ∧
    run { i with decompress := Except.error e } =
      (Except.error e, [Step.ping, Step.decodeWorkspaceInfo,
        Step.decompressSetupInfo]) ∧
    run { i with unmarshal := Except.error e } =
      (Except.error e, [Step.ping, Step.decodeWorkspaceInfo,
        Step.decompressSetupInfo, Step.unmarshalSetupInfo]) ∧
    run { i with
        streamMountsFlag := true
        reset := true
        mounts := [m]
        streamMount := fun _ => Except.error e } =
      (Except.error e, [Step.ping, Step.decodeWorkspaceInfo,
        Step.decompressSetupInfo, Step.unmarshalSetupInfo,
        Step.streamMounts]) ∧
    ((run { i with
        dockerless := { i.dockerless with
          dockerlessVar := "true"
          imageConfigExists := false
          contextVar := "/ctx"
          buildInfoDirExists := true
          executablePath := Except.error e } }).1 =
      Except.error ("dockerless build: " ++ e) ∧
    Step.fillContainerEnv ∉ (run { i with
        dockerless := { i.dockerless with
          dockerlessVar := "true"
          imageConfigExists := false
          contextVar := "/ctx"
          buildInfoDirExists := true
          executablePath := Except.error e } }).2) ∧
    ((run { i with fillEnv := Except.error e }).1 = Except.error e ∧
      Step.setupContainer ∉
        (run { i with fillEnv := Except.error e }).2) ∧
    (i.pullFromInsideContainer = some true → i.gitDirExists = false →
      (run { i with clone := Except.error e }).1 = Except.error e ∧
      Step.setupContainer ∉ (run { i with clone := Except.error e }).2) ∧
    ((run { i with setupContainer := Except.error e }).1 =
        Except.error e ∧
      Step.installIDE ∉
        (run { i with setupContainer := Except.error e }).2) ∧
    ((run { i with
        ideKind := IDEKind.fleet
        ide := { i.ide with install := Except.error e } }).1 =
        Except.error e ∧
      Step.sendResult ∉ (run { i with
        ideKind := IDEKind.fleet
        ide := { i.ide with install := Except.error e } }).2) ∧
    ((run { i with
        platformEnabled := false
        disableDaemon := false
        containerTimeout := "10m"
        daemon := Except.error e }).1 = Except.error e ∧
      Step.marshalResult ∉ (run { i with
        platformEnabled := false
        disableDaemon := false
        containerTimeout := "10m"
        daemon := Except.error e }).2) ∧
    ((run { i with marshalResult := Except.error e }).1 =
        Except.error ("marshal setup info: " ++ e) ∧
      Step.sendResult ∉
        (run { i with marshalResult := Except.error e }).2) ∧
    (run { i with sendResult := Except.error e }).1 =
      Except.error ("send result: " ++ e) := by
  obtain ⟨h1, h2, h3, h4, h5, h6, h7, h8, h9, h10, h11, h12, h13, h14, h15⟩ :=
    hok
  have hd : (dockerlessBuild { i.dockerless with
      dockerlessVar := "true"
      imageConfigExists := false
      contextVar := "/ctx"
      buildInfoDirExists := true
      executablePath := Except.error e } i.buildInfoFolder
      i.contextFeatureFolder).1 = Except.error e := by
    simp [dockerlessBuild, recoverBuildInfo]
  refine ⟨?_, ?_, ?_, ?_, ?_, ?_, ?_, ?_, ?_, ?_, ?_, ?_, ?_, ?_⟩
  · intro hgit
    refine ⟨?_, ?_, ?_, ?_, ?_⟩ <;>
      (simp only [run, stepThen_ok, stepThen_error, h1, h2, h3, h4, h5, h6,
        h7, h8, h10, h11, h12, h13, h14, h15, hgit]
       repeat' split) <;>
      simp_all [stepThen_ok, stepThen_error]
  · simp [run, stepThen_error, h1]
  · simp [run, stepThen_ok, stepThen_error, h1, h2]
  · simp [run, stepThen_ok, stepThen_error, h1, h2, h3]
  · simp [run, stepThen_ok, stepThen_error, h1, h2, h3, h4]
  · simp [run, stepThen_ok, stepThen_error, h1, h2, h3, h4, h5, syncMounts]
  · constructor <;>
      (simp only [run, stepThen_ok, stepThen_error, h1, h2, h3, h4, h5, h6,
        hd]
       repeat' split) <;>
      simp_all [stepThen_ok, stepThen_error]
  · constructor <;>
      (simp only [run, stepThen_ok, stepThen_error, h1, h2, h3, h4, h5, h6,
        h7]
       repeat' split) <;>
      simp_all [stepThen_ok, stepThen_error]
  · intro hp hg
    constructor <;>
      (simp only [run, stepThen_ok, stepThen_error, h1, h2, h3, h4, h5, h6,
        h7, h8, h9, hp, hg]
       repeat' split) <;>
      simp_all [stepThen_ok, stepThen_error]
  · constructor <;>
      (simp only [run, stepThen_ok, stepThen_error, h1, h2, h3, h4, h5, h6,
        h7, h8, h9, h10]
       repeat' split) <;>
      simp_all [stepThen_ok, stepThen_error]
  · constructor <;>
      (simp only [run, stepThen_ok, stepThen_error, h1, h2, h3, h4, h5, h6,
        h7, h8, h9, h10, h11, installIDE]
       repeat' split) <;>
      simp_all [stepThen_ok, stepThen_error]
  · constructor <;>
      (simp only [run, stepThen_ok, stepThen_error, h1, h2, h3, h4, h5, h6,
        h7, h8, h9, h10, h11, h12]
       repeat' split) <;>
      simp_all [stepThen_ok, stepThen_error]
  · constructor <;>
      (simp only [run, stepThen_ok, stepThen_error, h1, h2, h3, h4, h5, h6,
        h7, h8, h9, h10, h11, h12, h13]
       repeat' split) <;>
      simp_all [stepThen_ok, stepThen_error]
  · simp only [run, stepThen_ok, stepThen_error, h1, h2, h3, h4, h5, h6, h7,
      h8, h9, h10, h11, h12, h13, h14]
    repeat' split
    all_goals simp_all [stepThen_ok, stepThen_error]

/-- Witness for C3 at the concrete all-success input: a credential failure
is logged and the run still succeeds, while a ping or send failure aborts
with that error. -/
theorem run_error_policy_witness :
    RunInput.allOk witnessRunInput ∧
    witnessRunInput.injectGitCredentials = true ∧
    (run { witnessRunInput with
      configureGitCredentials := Except.error "boom" }).1 = Except.ok () ∧
    run { witnessRunInput with ping := Except.error "boom" } =
      (Except.error ("ping client: " ++ "boom"), [Step.ping]) ∧
    (run { witnessRunInput with sendResult := Except.error "boom" }).1 =
      Except.error ("send result: " ++ "boom") := by
  have hok : RunInput.allOk witnessRunInput :=
    ⟨rfl, rfl, rfl, rfl, rfl, rfl, rfl, rfl, rfl, rfl, rfl, rfl, rfl, rfl,
      rfl⟩
  exact ⟨hok, rfl,
    ((run_error_policy witnessRunInput "boom" ⟨"/s", "/t"⟩ hok).1 rfl).1,
    (run_error_policy witnessRunInput "boom" ⟨"/s", "/t"⟩ hok).2.1,
    (run_error_policy witnessRunInput "boom"
      ⟨"/s", "/t"⟩ hok).2.2.2.2.2.2.2.2.2.2.2.2.2⟩

set_option maxHeartbeats 2000000 in
/-- C7: with pull-from-inside-container enabled, the repository clone step
is skipped exactly when the workspace folder has a ".git" entry and
Recreate is false; with no ".git" marker or with Recreate set the clone is
attempted, and a clone failure aborts the run. -/
theorem run_clone_policy (i : RunInput) (e : String) (hok : i.allOk) :
    (i.pullFromInsideContainer = some true → i.gitDirExists = true →
      i.recreate = false →
      Step.cloneRepository ∉ (run i).2 ∧ (run i).1 = Except.ok ()) ∧
    (i.pullFromInsideContainer = some true → i.gitDirExists = false →
      Step.cloneRepository ∈ (run i).2) ∧
    (i.pullFromInsideContainer = some true → i.recreate = true →
      Step.cloneRepository ∈ (run i).2) ∧
    (i.pullFromInsideContainer = some true → i.gitDirExists = false →
      (run { i with clone := Except.error e }).1 = Except.error e ∧
      Step.setupContainer ∉
        (run { i with clone := Except.error e }).2) ∧
    (i.pullFromInsideContainer = some true → i.recreate = true →
      (run { i with clone := Except.error e }).1 = Except.error e ∧
      Step.setupContainer ∉
        (run { i with clone := Except.error e }).2) := by
  obtain ⟨h1, h2, h3, h4, h5, h6, h7, h8, h9, h10, h11, h12, h13, h14, h15⟩ :=
    hok
  refine ⟨?_, ?_, ?_, ?_, ?_⟩
  · intro hp hg hr
    constructor <;>
      (simp only [run, stepThen_ok, stepThen_error, h1, h2, h3, h4, h5, h6,
        h7, h8, h9, h10, h11, h12, h13, h14, h15, hp, hg, hr]
       repeat' split) <;>
      simp_all [stepThen_ok, stepThen_error]
  · intro hp hg
    simp only [run, stepThen_ok, stepThen_error, h1, h2, h3, h4, h5, h6, h7,
      h8, h9, h10, h11, h12, h13, h14, h15, hp, hg]
    repeat' split
    all_goals simp_all [stepThen_ok, stepThen_error]
  · intro hp hr
    simp only [run, stepThen_ok, stepThen_error, h1, h2, h3, h4, h5, h6, h7,
      h8, h9, h10, h11, h12, h13, h14, h15, hp, hr]
    repeat' split
    all_goals simp_all [stepThen_ok, stepThen_error]
  · intro hp hg
    constructor <;>
      (simp only [run, stepThen_ok, stepThen_error, h1, h2, h3, h4, h5, h6,
        h7, h8, h9, hp, hg]
       repeat' split) <;>
      simp_all [stepThen_ok, stepThen_error]
  · intro hp hr
    constructor <;>
      (simp only [run, stepThen_ok, stepThen_error, h1, h2, h3, h4, h5, h6,
        h7, h8, h9, hp, hr]
       repeat' split) <;>
      simp_all [stepThen_ok, stepThen_error]

/-- Witness for C7: with the ".git" marker present and no recreate the
clone step is absent and the run succeeds; with the marker absent the
clone step runs and its failure aborts the run. -/
theorem run_clone_policy_witness :
    RunInput.allOk witnessRunInput ∧
    witnessRunInput.pullFromInsideContainer = some true ∧
    witnessRunInput.gitDirExists = true ∧
    witnessRunInput.recreate = false ∧
    Step.cloneRepository ∉ (run witnessRunInput).2 ∧
    (run witnessRunInput).1 = Except.ok () ∧
    ({ witnessRunInput with gitDirExists := false }).gitDirExists = false ∧
    Step.cloneRepository ∈
      (run { witnessRunInput with gitDirExists := false }).2 ∧
    (run { { witnessRunInput with gitDirExists := false } with
      clone := Except.error "boom" }).1 = Except.error "boom" := by
  have hok : RunInput.allOk witnessRunInput :=
    ⟨rfl, rfl, rfl, rfl, rfl, rfl, rfl, rfl, rfl, rfl, rfl, rfl, rfl, rfl,
      rfl⟩
  have hokB : RunInput.allOk { witnessRunInput with gitDirExists := false } :=
    ⟨rfl, rfl, rfl, rfl, rfl, rfl, rfl, rfl, rfl, rfl, rfl, rfl, rfl, rfl,
      rfl⟩
  refine ⟨hok, rfl, rfl, rfl, ?_, ?_, rfl, ?_, ?_⟩
  · exact ((run_clone_policy witnessRunInput "boom" hok).1 rfl rfl rfl).1
  · exact ((run_clone_policy witnessRunInput "boom" hok).1 rfl rfl rfl).2
  · exact (run_clone_policy { witnessRunInput with gitDirExists := false }
      "boom" hokB).2.1 rfl rfl
  · exact ((run_clone_policy { witnessRunInput with gitDirExists := false }
      "boom" hokB).2.2.2.1 rfl rfl).1

end DevPodSetup
